import Mathlib

/-!
A shallow embedding of the persistence core of EshWord (`src/EshWord.py`):
the Document/editor record, the save/load/autosave logic, the tab
container, and the font-size operations.  GUI collaborators (file dialogs,
the status bar, message boxes, the Qt text widget, and Python's `json`
library) are modelled at the interface the program observes them through:
a chosen path is a `String` input, a file on disk is its decoded text
together with the outcome of parsing that text as JSON, a write is an
attempt whose success or failure is an input, and status-bar messages and
blocking error dialogs are fields of the operation's result.
-/

namespace EshWord

/-- A JSON scalar value, as read and written through Python's `json`
module by `EshWord.write_to_file` and `EshWord.load_file`.  The `.esh`
format only ever writes a flat object of scalars, and the loader only
inspects the value at the key `"text"`. -/
inductive JVal where
  | jstr (s : String)
  | jint (n : Int)
  | jbool (b : Bool)
  | jnull
deriving DecidableEq, Repr

/-- A flat JSON object: key/value pairs in insertion order, as produced by
`json.dump` of a Python dict and consumed by `json.load`. -/
abbrev JObj := List (String × JVal)

/-- Key lookup in a parsed JSON object: `data["text"]` after a
`"text" in data` membership test in `load_file`.  `none` means the key is
absent. -/
def lookupKey (o : JObj) (k : String) : Option JVal :=
  (o.find? (fun p => p.1 == k)).map (fun p => p.2)

/-- Python's `str.endswith`, the extension dispatch used by `load_file`,
`save_file_as` and `autosave`: a suffix test on the character sequence. -/
def endswith (s suffix : String) : Bool :=
  suffix.data.isSuffixOf s.data

/-- The formatting attributes of the current font of a tab's text widget:
`editor.currentFont()` in the source (family, pointSize, bold, italic,
underline). -/
structure Font where
  family : String
  pointSize : Int
  bold : Bool
  italic : Bool
  underline : Bool
deriving DecidableEq, Repr

/-- The font `add_new_tab` installs in every freshly created editor:
`QFont("Segoe UI", 10)` with no bold/italic/underline. -/
def defaultFont : Font :=
  { family := "Segoe UI", pointSize := 10, bold := false, italic := false,
    underline := false }

/-- One `QTextEdit` editor: its plain-text content (`toPlainText` /
`setPlainText`) and its current font. -/
structure Editor where
  content : String
  font : Font
deriving DecidableEq, Repr

/-- One tab of the `QTabWidget`: its tab text (the file path, or the
"Untitled" sentinel) and its editor widget. -/
structure Tab where
  title : String
  editor : Editor
deriving DecidableEq, Repr

/-- The application state the persistence core reads and writes: the tab
container (`self.tabs`, with its current index) and the autosave flag
(`self.autosave_enabled`). -/
structure AppState where
  tabs : List Tab
  currentIndex : Nat
  autosave_enabled : Bool
deriving DecidableEq, Repr

/-- The data handed to the file system by one write: either `json.dump` of
a flat object (the `is_esh` branch of `write_to_file`) or `f.write` of raw
text (the plain branch, and the inline writes in `save_file_as` and
`autosave`). -/
inductive FilePayload where
  | jsonPayload (o : JObj)
  | textPayload (s : String)
deriving DecidableEq, Repr

/-- One write issued to the file system: the target path and the payload.
Operations report the list of writes they attempted, so "performs no file
I/O" is `writes = []`. -/
structure WriteAttempt where
  path : String
  payload : FilePayload
deriving DecidableEq, Repr

/-- The file system's response to a write attempt, an input to the
operations that write: `success`, or an `IOError`-style exception carrying
its message (disk full, permission denied, ...). -/
inductive WriteOutcome where
  | success
  | ioError (msg : String)
deriving DecidableEq, Repr

/-- The outcome of parsing a file's text with `json.load`: a flat object,
or a raised parse exception with its message. -/
inductive ParseResult where
  | ok (o : JObj)
  | jsonError (msg : String)
deriving DecidableEq, Repr

/-- A file on disk, at the granularity `load_file` observes it: its
decoded UTF-8 text (what `f.read()` returns on the plain branch) and the
result of `json.load` on that text (what the `.esh` branch sees). -/
structure DiskFile where
  text : String
  parsed : ParseResult
deriving DecidableEq, Repr

/-- The result of one user- or timer-initiated persistence operation:
the new application state, the writes attempted, the transient status-bar
message (`statusBar().showMessage`), and the blocking error dialog
(`QMessageBox.critical`), if any. -/
structure OpResult where
  state : AppState
  writes : List WriteAttempt
  status : Option String
  dialog : Option String
deriving DecidableEq, Repr

/-- The dict `write_to_file` serializes for an `.esh` save: keys `text`,
`font`, `size`, `bold`, `italic`, `underline`, in that insertion order. -/
def eshData (editor : Editor) : JObj :=
  [("text", JVal.jstr editor.content),
   ("font", JVal.jstr editor.font.family),
   ("size", JVal.jint editor.font.pointSize),
   ("bold", JVal.jbool editor.font.bold),
   ("italic", JVal.jbool editor.font.italic),
   ("underline", JVal.jbool editor.font.underline)]

/-- `EshWord.write_to_file(file_name, is_esh)`: the write it issues.  With
`is_esh` it dumps `eshData` as JSON to `file_name`; otherwise it writes
the editor's plain text. -/
def write_to_file (editor : Editor) (file_name : String) (is_esh : Bool) :
    WriteAttempt :=
  if is_esh then
    { path := file_name, payload := FilePayload.jsonPayload (eshData editor) }
  else
    { path := file_name, payload := FilePayload.textPayload editor.content }

/-- `EshWord.add_new_tab(title, content)`: appends a tab whose editor
holds `content` with the default font (`QFont("Segoe UI", 10)`), and makes
it current (`setCurrentIndex(index)` with `index` the appended position). -/
def add_new_tab (st : AppState) (title : String) (content : String) :
    AppState :=
  { st with
    tabs := st.tabs ++
      [{ title := title, editor := { content := content, font := defaultFont } }],
    currentIndex := st.tabs.length }

/-- The dialog text shown when a structured file has no `"text"` key:
`"Failed to load file: "` prefixing the `ValueError` message raised at
line 82 of the source. -/
def loadErrorMissingText : String :=
  "Failed to load file: Invalid file format: missing 'text' key."

/-- `EshWord.load_file` after the open dialog returned `file_name` and the
file was read as `file`.  For a path ending in `.esh` it takes the JSON
parse, requires the `"text"` key (raising `ValueError` otherwise), and
uses only that key's value as the new content; any other key is ignored.
A non-string `"text"` value makes `setPlainText` raise a `TypeError`.  For
any other path the raw text is the content.  On success `add_new_tab`
creates the tab; every raised exception is caught and shown as a blocking
`QMessageBox.critical`, with no tab created. -/
def load_file (st : AppState) (file_name : String) (file : DiskFile) :
    OpResult :=
  if endswith file_name ".esh" then
    match file.parsed with
    | ParseResult.jsonError m =>
        { state := st, writes := [], status := none,
          dialog := some ("Failed to load file: " ++ m) }
    | ParseResult.ok data =>
        match lookupKey data "text" with
        | none =>
            { state := st, writes := [], status := none,
              dialog := some loadErrorMissingText }
        | some (JVal.jstr content) =>
            { state := add_new_tab st file_name content, writes := [],
              status := some ("File loaded: " ++ file_name), dialog := none }
        | some _ =>
            { state := st, writes := [], status := none,
              dialog := some "Failed to load file: TypeError" }
  else
    { state := add_new_tab st file_name file.text, writes := [],
      status := some ("File loaded: " ++ file_name), dialog := none }

/-- `QTabWidget.setTabText(i, title)`: renames the tab at `i`, a no-op on
an invalid index. -/
def setTabText (st : AppState) (i : Nat) (title : String) : AppState :=
  match st.tabs[i]? with
  | some tab => { st with tabs := st.tabs.set i { tab with title := title } }
  | none => st

/-- `EshWord.save_file_as` after the save dialog returned `file_name`,
with `w` the file system's response to the write.  An `.esh` path goes
through `write_to_file(file_name, is_esh=True)`; any other path writes the
editor's plain text inline.  Only after a successful write is the tab
retitled to `file_name`; a raised exception is caught and shown as a
blocking dialog, leaving the state unchanged.  If no current editor
exists, reading it raises before any write, which the same handler
catches. -/
def save_file_as (st : AppState) (file_name : String) (w : WriteOutcome) :
    OpResult :=
  match st.tabs[st.currentIndex]? with
  | none =>
      { state := st, writes := [], status := none,
        dialog := some "Failed to save file: no current editor" }
  | some tab =>
      let attempt :=
        if endswith file_name ".esh" then write_to_file tab.editor file_name true
        else { path := file_name, payload := FilePayload.textPayload tab.editor.content }
      match w with
      | WriteOutcome.success =>
          { state := setTabText st st.currentIndex file_name,
            writes := [attempt],
            status := some ("File saved: " ++ file_name), dialog := none }
      | WriteOutcome.ioError e =>
          { state := st, writes := [attempt], status := none,
            dialog := some ("Failed to save file: " ++ e) }

/-- `QTabWidget.tabText(i)`: the title of the tab at `i`, or the empty
string on an invalid index (Qt's behavior). -/
def tabText (st : AppState) (i : Nat) : String :=
  match st.tabs[i]? with
  | some tab => tab.title
  | none => ""

/-- `EshWord.autosave`, the 60-second timer callback, with `w` the file
system's response to the write it attempts.  It does nothing unless
autosave is enabled and the current tab's text differs from the
`"Untitled"` sentinel; then it saves to the tab's title (`write_to_file`
for an `.esh` title, an inline plain-text write otherwise), reporting
success or failure only through the transient status bar — every
exception is caught, and no dialog is ever raised.  If no current editor
exists the attempted write of the empty title raises before any data is
written, which the same handler catches into the status bar. -/
def autosave (st : AppState) (w : WriteOutcome) : OpResult :=
  if st.autosave_enabled then
    let title := tabText st st.currentIndex
    if title ≠ "Untitled" then
      match st.tabs[st.currentIndex]? with
      | none =>
          { state := st, writes := [],
            status := some "Autosave failed: no current editor", dialog := none }
      | some tab =>
          let attempt :=
            if endswith title ".esh" then write_to_file tab.editor title true
            else { path := title, payload := FilePayload.textPayload tab.editor.content }
          match w with
          | WriteOutcome.success =>
              { state := st, writes := [attempt],
                status := some ("Autosaved: " ++ title), dialog := none }
          | WriteOutcome.ioError e =>
              { state := st, writes := [attempt],
                status := some ("Autosave failed: " ++ e), dialog := none }
    else
      { state := st, writes := [], status := none, dialog := none }
  else
    { state := st, writes := [], status := none, dialog := none }

/-- `QTabWidget.removeTab(index)` followed by the `close_tab` repopulation
check: Qt removes the page at `index` (a no-op when invalid) and moves the
current index onto a remaining tab; if no tab remains, `close_tab` opens a
fresh empty "Untitled" tab. -/
def close_tab (st : AppState) (index : Nat) : AppState :=
  let removed : AppState :=
    { st with
      tabs := st.tabs.eraseIdx index,
      currentIndex := min st.currentIndex ((st.tabs.eraseIdx index).length - 1) }
  if removed.tabs.length == 0 then add_new_tab removed "Untitled" "" else removed

/-- The point-size computation of `increase_font_size`: a non-positive
current size is first reset to the default 10, then the size is bumped by
one. -/
def increase_font_size_calc (size : Int) : Int :=
  let size := if size ≤ 0 then 10 else size
  size + 1

/-- The point-size computation of `decrease_font_size`: a non-positive
current size is first reset to the default 10; the size is then lowered by
one only when it exceeds 1, so the font size is never set to 0. -/
def decrease_font_size_calc (size : Int) : Int :=
  let size := if size ≤ 0 then 10 else size
  if size > 1 then size - 1 else size

/-- `EshWord.increase_font_size`: applies `increase_font_size_calc` to the
current editor's point size (reading `currentFont()`, writing back with
`setFont`).  With no current editor the read raises, the handler shows a
dialog, and the state is unchanged. -/
def increase_font_size (st : AppState) : AppState :=
  match st.tabs[st.currentIndex]? with
  | none => st
  | some tab =>
      { st with
        tabs := st.tabs.set st.currentIndex
          { tab with editor := { tab.editor with font :=
              { tab.editor.font with
                pointSize := increase_font_size_calc tab.editor.font.pointSize } } } }

/-- `EshWord.decrease_font_size`: applies `decrease_font_size_calc` to the
current editor's point size.  When the guarded decrement does not fire
(size exactly 1) the source skips `setFont`, leaving the font as it was —
which coincides with writing back the unchanged size. -/
def decrease_font_size (st : AppState) : AppState :=
  match st.tabs[st.currentIndex]? with
  | none => st
  | some tab =>
      { st with
        tabs := st.tabs.set st.currentIndex
          { tab with editor := { tab.editor with font :=
              { tab.editor.font with
                pointSize := decrease_font_size_calc tab.editor.font.pointSize } } } }

/-- The point size of the current tab's editor, when a current tab
exists. -/
def currentPointSize (st : AppState) : Option Int :=
  (st.tabs[st.currentIndex]?).map (fun tab => tab.editor.font.pointSize)

/-- Decidable form of the size-floor invariant: the current editor's point
size, when there is one, is at least 1. -/
def currentSizeOk (st : AppState) : Bool :=
  match st.tabs[st.currentIndex]? with
  | some tab => decide (1 ≤ tab.editor.font.pointSize)
  | none => true

/-- The state right after startup: one empty "Untitled" tab, autosave
enabled. -/
def st0 : AppState :=
  { tabs := [{ title := "Untitled",
               editor := { content := "", font := defaultFont } }],
    currentIndex := 0, autosave_enabled := true }

/-- A state whose single tab has been saved to `notes.txt`. -/
def stNamed : AppState :=
  { tabs := [{ title := "notes.txt",
               editor := { content := "hi", font := defaultFont } }],
    currentIndex := 0, autosave_enabled := true }

/-- A state whose single editor reports the invalid point size 0. -/
def stZeroSize : AppState :=
  { tabs := [{ title := "Untitled",
               editor := { content := "",
                           font := { family := "Segoe UI", pointSize := 0,
                                     bold := false, italic := false,
                                     underline := false } } }],
    currentIndex := 0, autosave_enabled := true }

/-- The concrete document of the spec's scenario: content "Hello", font
"Mono" at 12 pt, bold. -/
def dMono : Editor :=
  { content := "Hello",
    font := { family := "Mono", pointSize := 12, bold := true,
              italic := false, underline := false } }

/-! Shared lemmas about the embedding. -/

/-- The object written by a structured save always carries the document's
content under the `"text"` key. -/
theorem lookupKey_eshData_text (editor : Editor) :
    lookupKey (eshData editor) "text" = some (JVal.jstr editor.content) := rfl

/-- Lowering the size never drops it below the floor of 1. -/
theorem decrease_font_size_calc_floor {p : Int} (hp : 1 ≤ p) :
    1 ≤ decrease_font_size_calc p := by
  simp only [decrease_font_size_calc]
  split_ifs <;> omega

/-- One decrement step preserves the size-floor invariant on the current
editor. -/
theorem currentSizeOk_decrease (st : AppState) (h : currentSizeOk st = true) :
    currentSizeOk (decrease_font_size st) = true := by
  cases hcur : st.tabs[st.currentIndex]? with
  | none => simp [currentSizeOk, decrease_font_size, hcur]
  | some tab =>
      have hlt : st.currentIndex < st.tabs.length := by
        rcases List.getElem?_eq_some_iff.1 hcur with ⟨h1, _⟩
        exact h1
      have h1 : 1 ≤ tab.editor.font.pointSize := by
        have h2 := h
        simp [currentSizeOk, hcur] at h2
        exact h2
      have h2 := decrease_font_size_calc_floor h1
      simp [currentSizeOk, decrease_font_size, hcur, List.getElem?_set_self hlt]
      exact h2

/-! The claims. -/

/-- C1, counterexample: saving the spec's concrete document (font "Mono",
12 pt, bold) as `note.esh` and loading the resulting file yields a tab
whose content is reproduced but whose font is the default — its point
size is 10, not the saved 12 — so the structured round trip does not
restore the formatting fields. -/
theorem structured_roundtrip_formatting_cex :
    write_to_file dMono "note.esh" true =
      { path := "note.esh", payload := FilePayload.jsonPayload (eshData dMono) }
    ∧ (load_file st0 "note.esh"
         { text := "", parsed := ParseResult.ok (eshData dMono) }).state.tabs =
        st0.tabs ++ [{ title := "note.esh",
                       editor := { content := "Hello", font := defaultFont } }]
    ∧ ¬ defaultFont.pointSize = dMono.font.pointSize := by decide

/-- C1, amended: for every Document with valid formatting, saving in the
structured encoding and loading the resulting file reproduces the content
exactly, while the five formatting fields are reset to the defaults
(family "Segoe UI", size 10, no bold/italic/underline), because load reads
only the `"text"` key and `add_new_tab` installs the default font. -/
theorem structured_roundtrip_content_defaults
    (st : AppState) (d : Editor) (fn t : String) (o : JObj)
    (hsize : 1 ≤ d.font.pointSize)
    (hfn : endswith fn ".esh" = true)
    (hsave : write_to_file d fn true =
      { path := fn, payload := FilePayload.jsonPayload o }) :
    (load_file st fn { text := t, parsed := ParseResult.ok o }).state.tabs =
      st.tabs ++ [{ title := fn,
                    editor := { content := d.content, font := defaultFont } }]
    ∧ (load_file st fn { text := t, parsed := ParseResult.ok o }).dialog = none := by
  have ho : o = eshData d := by
    have hp := congrArg WriteAttempt.payload hsave
    simp [write_to_file] at hp
    exact hp.symm
  subst ho
  simp [load_file, hfn, lookupKey_eshData_text, add_new_tab]

/-- C1, witness: the amended round trip instantiated on the concrete
document of the spec's scenario. -/
theorem structured_roundtrip_content_defaults_witness :
    1 ≤ dMono.font.pointSize
    ∧ endswith "note.esh" ".esh" = true
    ∧ (load_file st0 "note.esh"
         { text := "", parsed := ParseResult.ok (eshData dMono) }).state.tabs =
        st0.tabs ++ [{ title := "note.esh",
                       editor := { content := dMono.content, font := defaultFont } }] :=
  ⟨by decide, by decide,
   (structured_roundtrip_content_defaults st0 dMono "note.esh" "" (eshData dMono)
     (by decide) (by decide) rfl).1⟩

/-- C2, counterexample: a structured file whose JSON object is
`{"text": "hi"}` — missing `font`, `size`, `bold`, `italic` and
`underline` — still loads successfully and produces a new Document, so
the six keys are not all required. -/
theorem only_text_key_required_cex :
    (load_file st0 "a.esh"
       { text := "", parsed := ParseResult.ok [("text", JVal.jstr "hi")] }).dialog = none
    ∧ (load_file st0 "a.esh"
         { text := "", parsed := ParseResult.ok [("text", JVal.jstr "hi")] }).state.tabs.length
        = st0.tabs.length + 1 := by decide

/-- C2, amended: on read only the `"text"` key is required: a structured
file whose object carries a string `"text"` value loads successfully no
matter which of the other five keys are absent, and a structured file
lacking `"text"` fails with the missing-key error and produces no
Document. -/
theorem only_text_key_required
    (st : AppState) (fn t s : String) (o o2 : JObj)
    (hfn : endswith fn ".esh" = true)
    (htext : lookupKey o "text" = some (JVal.jstr s))
    (hmiss : lookupKey o2 "text" = none) :
    load_file st fn { text := t, parsed := ParseResult.ok o } =
      { state := add_new_tab st fn s, writes := [],
        status := some ("File loaded: " ++ fn), dialog := none }
    ∧ load_file st fn { text := t, parsed := ParseResult.ok o2 } =
      { state := st, writes := [], status := none,
        dialog := some loadErrorMissingText } := by
  constructor
  · simp [load_file, hfn, htext]
  · simp [load_file, hfn, hmiss]

/-- C2, witness: the amended statement instantiated on a file holding only
`"text"` and a file holding only `"font"`. -/
theorem only_text_key_required_witness :
    endswith "a.esh" ".esh" = true
    ∧ lookupKey [("text", JVal.jstr "hi")] "text" = some (JVal.jstr "hi")
    ∧ lookupKey [("font", JVal.jstr "Mono")] "text" = none
    ∧ load_file st0 "a.esh"
        { text := "", parsed := ParseResult.ok [("text", JVal.jstr "hi")] } =
      { state := add_new_tab st0 "a.esh" "hi", writes := [],
        status := some ("File loaded: " ++ "a.esh"), dialog := none } :=
  ⟨by decide, by decide, by decide,
   (only_text_key_required st0 "a.esh" "" "hi" [("text", JVal.jstr "hi")]
     [("font", JVal.jstr "Mono")] (by decide) (by decide) (by decide)).1⟩

/-- C3: a structured file whose JSON object lacks the `"text"` key makes
load fail with the missing-key format error shown as a dialog, and the
application state is unchanged — no new Document (tab) is created. -/
theorem missing_text_key_load_fails
    (st : AppState) (fn t : String) (o : JObj)
    (hfn : endswith fn ".esh" = true)
    (hmiss : lookupKey o "text" = none) :
    load_file st fn { text := t, parsed := ParseResult.ok o } =
      { state := st, writes := [], status := none,
        dialog := some loadErrorMissingText } := by
  simp [load_file, hfn, hmiss]

/-- C3, witness: loading a `"text"`-less structured file from the startup
state fails and leaves the state untouched. -/
theorem missing_text_key_load_fails_witness :
    endswith "a.esh" ".esh" = true
    ∧ lookupKey [("font", JVal.jstr "Mono")] "text" = none
    ∧ load_file st0 "a.esh"
        { text := "", parsed := ParseResult.ok [("font", JVal.jstr "Mono")] } =
      { state := st0, writes := [], status := none,
        dialog := some loadErrorMissingText } :=
  ⟨by decide, by decide,
   missing_text_key_load_fails st0 "a.esh" "" [("font", JVal.jstr "Mono")]
     (by decide) (by decide)⟩

/-- C4: an autosave tick on a Document whose tab text is the "Untitled"
sentinel performs no file I/O, reports no status and raises no dialog,
leaving the state unchanged — whether autosave is enabled or not. -/
theorem autosave_untitled_noop
    (st : AppState) (w : WriteOutcome) (tab : Tab)
    (hcur : st.tabs[st.currentIndex]? = some tab)
    (htitle : tab.title = "Untitled") :
    autosave st w = { state := st, writes := [], status := none, dialog := none } := by
  have ht : tabText st st.currentIndex = "Untitled" := by
    simp [tabText, hcur, htitle]
  cases hen : st.autosave_enabled <;> simp [autosave, hen, ht]

/-- C4, witness: the autosave tick on the startup state's "Untitled" tab
is a complete no-op. -/
theorem autosave_untitled_noop_witness :
    st0.tabs[st0.currentIndex]? =
      some { title := "Untitled", editor := { content := "", font := defaultFont } }
    ∧ autosave st0 WriteOutcome.success =
      { state := st0, writes := [], status := none, dialog := none } :=
  ⟨by decide,
   autosave_untitled_noop st0 WriteOutcome.success
     { title := "Untitled", editor := { content := "", font := defaultFont } }
     (by decide) (by decide)⟩

/-- C5: starting from any state whose current editor satisfies the size
floor `pointSize ≥ 1`, every sequence of decrement operations keeps the
floor, and the decrement computation is a no-op at size 1. -/
theorem decrease_font_size_floor
    (st : AppState) (n : Nat) (h : currentSizeOk st = true) :
    currentSizeOk (decrease_font_size^[n] st) = true
    ∧ decrease_font_size_calc 1 = 1 := by
  refine ⟨?_, by decide⟩
  induction n with
  | zero => simpa using h
  | succ n ih =>
      rw [Function.iterate_succ_apply']
      exact currentSizeOk_decrease _ ih

/-- C5, witness: three decrements from the startup state's 10 pt editor
keep the size at or above the floor. -/
theorem decrease_font_size_floor_witness :
    currentSizeOk st0 = true
    ∧ currentSizeOk (decrease_font_size^[3] st0) = true :=
  ⟨by decide, (decrease_font_size_floor st0 3 (by decide)).1⟩

/-- C6: saving any Document in the plain encoding and loading the
resulting file (under its non-`.esh` name) reproduces the content
exactly, while the new tab's formatting is the default font — the
formatting fields are not persisted. -/
theorem plain_roundtrip_content
    (st : AppState) (e : Editor) (fn s : String) (parsed : ParseResult)
    (hfn : endswith fn ".esh" = false)
    (hsave : write_to_file e fn false =
      { path := fn, payload := FilePayload.textPayload s }) :
    (load_file st fn { text := s, parsed := parsed }).state.tabs =
      st.tabs ++ [{ title := fn,
                    editor := { content := e.content, font := defaultFont } }]
    ∧ (load_file st fn { text := s, parsed := parsed }).dialog = none := by
  have hs : s = e.content := by
    have hp := congrArg WriteAttempt.payload hsave
    simp [write_to_file] at hp
    exact hp.symm
  subst hs
  simp [load_file, hfn, add_new_tab]

/-- C6, witness: the plain round trip of the spec's concrete document
through `note.txt`. -/
theorem plain_roundtrip_content_witness :
    endswith "note.txt" ".esh" = false
    ∧ (load_file st0 "note.txt"
         { text := "Hello", parsed := ParseResult.jsonError "x" }).state.tabs =
        st0.tabs ++ [{ title := "note.txt",
                       editor := { content := dMono.content, font := defaultFont } }] :=
  ⟨by decide,
   (plain_roundtrip_content st0 dMono "note.txt" "Hello"
     (ParseResult.jsonError "x") (by decide) rfl).1⟩

/-- C7: when the save attempted by an autosave tick on a titled Document
fails with an I/O error, the failure is swallowed into a transient status
message ("Autosave failed: ..."), no blocking dialog is raised, and the
state is unchanged — the edit session is not interrupted. -/
theorem autosave_failure_swallowed
    (st : AppState) (tab : Tab) (e : String)
    (hcur : st.tabs[st.currentIndex]? = some tab)
    (htitle : ¬ tab.title = "Untitled")
    (hen : st.autosave_enabled = true) :
    (autosave st (WriteOutcome.ioError e)).state = st
    ∧ (autosave st (WriteOutcome.ioError e)).status =
        some ("Autosave failed: " ++ e)
    ∧ (autosave st (WriteOutcome.ioError e)).dialog = none := by
  have ht : tabText st st.currentIndex = tab.title := by
    simp [tabText, hcur]
  simp [autosave, hen, ht, htitle, hcur]

/-- C7, witness: a failing disk on an autosave of `notes.txt` is reported
only through the status bar. -/
theorem autosave_failure_swallowed_witness :
    stNamed.tabs[stNamed.currentIndex]? =
      some { title := "notes.txt", editor := { content := "hi", font := defaultFont } }
    ∧ ¬ ("notes.txt" : String) = "Untitled"
    ∧ (autosave stNamed (WriteOutcome.ioError "disk full")).status =
        some ("Autosave failed: " ++ "disk full") :=
  ⟨by decide, by decide,
   (autosave_failure_swallowed stNamed
     { title := "notes.txt", editor := { content := "hi", font := defaultFont } }
     "disk full" (by decide) (by decide) (by decide)).2.1⟩

/-- C8: a failed user-initiated load (one that raises an error dialog)
leaves the application state unchanged — no new tab — and a save-as whose
write fails with an I/O error leaves the state, in particular the tab's
recorded title, unchanged. -/
theorem failed_load_save_state_unchanged
    (st : AppState) (fn : String) (file : DiskFile) (e : String)
    (hfail : (load_file st fn file).dialog.isSome = true) :
    (load_file st fn file).state = st
    ∧ (save_file_as st fn (WriteOutcome.ioError e)).state = st := by
  constructor
  · rcases file with ⟨t, parsed⟩
    cases hfn : endswith fn ".esh" with
    | false => simp [load_file, hfn] at hfail
    | true =>
        cases parsed with
        | jsonError m => simp [load_file, hfn]
        | ok data =>
            cases hk : lookupKey data "text" with
            | none => simp [load_file, hfn, hk]
            | some v =>
                cases v with
                | jstr s => simp [load_file, hfn, hk] at hfail
                | jint n => simp [load_file, hfn, hk]
                | jbool b => simp [load_file, hfn, hk]
                | jnull => simp [load_file, hfn, hk]
  · cases hcur : st.tabs[st.currentIndex]? with
    | none => simp [save_file_as, hcur]
    | some tab => simp [save_file_as, hcur]

/-- C8, witness: a load failing on a `"text"`-less structured file and a
save-as hit by a full disk both leave the startup state intact. -/
theorem failed_load_save_state_unchanged_witness :
    (load_file st0 "a.esh"
       { text := "", parsed := ParseResult.ok [("font", JVal.jstr "Mono")] }).dialog.isSome = true
    ∧ (load_file st0 "a.esh"
         { text := "", parsed := ParseResult.ok [("font", JVal.jstr "Mono")] }).state = st0
    ∧ (save_file_as st0 "a.esh" (WriteOutcome.ioError "disk full")).state = st0 :=
  ⟨by decide,
   (failed_load_save_state_unchanged st0 "a.esh"
     { text := "", parsed := ParseResult.ok [("font", JVal.jstr "Mono")] }
     "disk full" (by decide)).1,
   (failed_load_save_state_unchanged st0 "a.esh"
     { text := "", parsed := ParseResult.ok [("font", JVal.jstr "Mono")] }
     "disk full" (by decide)).2⟩

/-- C9: after any close-tab operation at least one tab remains open —
closing the last tab immediately opens a fresh "Untitled" tab, so the tab
count can never reach zero. -/
theorem close_tab_keeps_one_tab (st : AppState) (index : Nat) :
    1 ≤ (close_tab st index).tabs.length := by
  unfold close_tab
  dsimp only
  split
  · simp [add_new_tab]
  · rename_i h
    simp only [beq_iff_eq] at h
    show 1 ≤ (st.tabs.eraseIdx index).length
    omega

/-- C10: when the current point size is invalid (≤ 0), increment resets it
to the default 10 and then steps, yielding 11, while decrement resets and
steps down, yielding 9. -/
theorem nonpositive_size_reset_default
    (st : AppState) (p : Int)
    (hp : currentPointSize st = some p) (h0 : p ≤ 0) :
    currentPointSize (increase_font_size st) = some 11
    ∧ currentPointSize (decrease_font_size st) = some 9 := by
  cases hcur : st.tabs[st.currentIndex]? with
  | none => simp [currentPointSize, hcur] at hp
  | some tab =>
      have hps : tab.editor.font.pointSize = p := by
        simp [currentPointSize, hcur] at hp
        exact hp
      have hlt : st.currentIndex < st.tabs.length := by
        rcases List.getElem?_eq_some_iff.1 hcur with ⟨h1, _⟩
        exact h1
      constructor
      · simp [increase_font_size, hcur, currentPointSize,
          List.getElem?_set_self hlt, increase_font_size_calc, hps, h0]
      · simp [decrease_font_size, hcur, currentPointSize,
          List.getElem?_set_self hlt, decrease_font_size_calc, hps, h0]

/-- C10, witness: from a 0 pt editor, increment gives 11 and decrement
gives 9. -/
theorem nonpositive_size_reset_default_witness :
    currentPointSize stZeroSize = some 0
    ∧ currentPointSize (increase_font_size stZeroSize) = some 11
    ∧ currentPointSize (decrease_font_size stZeroSize) = some 9 :=
  ⟨by decide,
   (nonpositive_size_reset_default stZeroSize 0 (by decide) (by decide)).1,
   (nonpositive_size_reset_default stZeroSize 0 (by decide) (by decide)).2⟩

end EshWord
